import Mathlib

/-!
Shallow embedding of the survey-dashboard data pipeline (src/app.py).

The program is a dashboard over a row-oriented table of survey responses.
Cells are optional strings (a missing cell models a NaN in the source).
The embedded functions mirror, in order: the column pipeline of
`load_data` (rename + drop), `get_likert_columns`, `categorize_questions`,
`group_responses`, `calculate_response_distribution`, and the pieces of
`main` that the verified properties talk about (the department/tenure
filter options, the per-department breakdown call, and the percentage
metrics).

Modelling notes:
* A pandas Series of labels is a `List Cell` where `none` models NaN.
  `Series.map` over the grouping dict sends keys absent from the dict to
  NaN, which is modelled by `Option.bind` into a partial map.
* `value_counts` drops NaN and tallies the remaining values.  pandas
  additionally sorts the tally by descending count; no property below
  depends on the order of the tally, so the tally is kept in
  first-occurrence order of the distinct values.
* `str.lower` and `str.startswith` are modelled character-wise
  (`Char.toLower` agrees with `str.lower` on the ASCII question texts).
-/

namespace SurveyApp

/-- Character-wise lower-casing, modelling Python `str.lower` on ASCII text. -/
def strLower (s : String) : String := String.mk (s.data.map Char.toLower)

/-- Modelling Python `str.startswith`. -/
def strStarts (s pat : String) : Bool := pat.data.isPrefixOf s.data

/-- Helper for substring search over character lists. -/
def containsSub : List Char → List Char → Bool
  | pat, [] => pat.isEmpty
  | pat, c :: cs => pat.isPrefixOf (c :: cs) || containsSub pat cs

/-- Modelling the Python substring test `pat in s`. -/
def strContains (s pat : String) : Bool := containsSub pat.data s.data

/-- One table cell: `none` models a missing value (NaN). -/
abbrev Cell := Option String

/-- A row-oriented data frame: column names and one cell list per row. -/
structure Table where
  header : List String
  rows : List (List Cell)
deriving DecidableEq

/-- Column lookup by name, yielding the cells of that column across all
rows, or `none` when no column has that name (pandas raises `KeyError`
in that case). -/
def Table.getCol? (df : Table) (name : String) : Option (List Cell) :=
  (df.header.findIdx? (fun c => c == name)).map
    (fun i => df.rows.map (fun r => r.getD i none))

/-- Total column lookup used where callers only pass names drawn from the
header; an absent name yields no cells. -/
def Table.getCol (df : Table) (name : String) : List Cell :=
  (df.getCol? name).getD []

/-- Column lookup with the pandas failure surfaced, modelling `df[name]`
raising `KeyError` for an absent column. -/
def Table.colE (df : Table) (name : String) : Except String (List Cell) :=
  match df.getCol? name with
  | some cells => .ok cells
  | none => .error ("KeyError: " ++ name)

/-- Modelling `series.dropna()`: the non-missing values, in row order. -/
def dropna (cells : List Cell) : List String := cells.filterMap id

/-- Modelling the row filter `df[df[colName] == v]` (src/app.py lines
248-251, 357, 408) for a column that is present; rows with a missing cell
compare unequal and are dropped, as in pandas.  (For an absent column
pandas would raise; that case is never exercised below.) -/
def Table.filterByValue (df : Table) (colName v : String) : Table :=
  match df.header.findIdx? (fun c => c == colName) with
  | none => df
  | some i => ⟨df.header, df.rows.filter (fun r => r.getD i none == some v)⟩

/-- The column renaming of `load_data` (src/app.py lines 82-86). -/
def renameCol (c : String) : String :=
  if c = "Please check the Department or Team you primarily work with." then "Department"
  else if c = "How long have you been with Rocscience?" then "Tenure"
  else if c = "Respondent ID" then "Respondent_ID"
  else c

/-- The drop predicate of `load_data` (src/app.py line 89): a column is
dropped when its name contains "Other (please specify)" or equals
"Response". -/
def isDroppedCol (c : String) : Bool :=
  strContains c "Other (please specify)" || c == "Response"

/-- The column pipeline of `load_data` (src/app.py lines 82-92): rename
the three identifier columns, then drop the matching columns.  The CSV
decoding itself (two header rows, cp1252) is outside the embedded
fragment; this function maps the raw (row-2) column names to the loaded
column names. -/
def load_data_cols (raw : List String) : List String :=
  (raw.map renameCol).filter (fun c => !isDroppedCol c)

/-- The five fixed Likert labels (src/app.py line 96). -/
def likert_values : List String :=
  ["Strongly Agree", "Agree", "Disagree", "Strongly Disagree", "Don\x27t Know"]

/-- `get_likert_columns` (src/app.py lines 94-106): keep a column unless
it is one of the three identifier columns or named with the
"Open-Ended" prefix, and require at least one of its non-missing
distinct values to be a Likert label. -/
def get_likert_columns (df : Table) : List String :=
  df.header.filter (fun col =>
    !(["Respondent_ID", "Department", "Tenure"].contains col) &&
    !(strStarts col "Open-Ended") &&
    ((dropna (df.getCol col)).dedup.any (fun v => likert_values.contains v)))

/-- The eight category names, in the priority order of the source dict
(src/app.py lines 110-119). -/
def categoryNames : List String :=
  ["Customer Focused", "Innovation", "Excellence", "Accountability",
   "Supportive", "Culture & Values Awareness", "Growth & Change", "Other"]

/-- The keyword if/elif chain of `categorize_questions` (src/app.py lines
121-138), first match wins.  The third disjunct of the Accountability
test keeps the source form, where the Python `and` binds tighter than
`or`. -/
def categoryOf (col : String) : String :=
  let c := strLower col
  if strContains c "customer" then "Customer Focused"
  else if strContains c "innov" || strContains c "new" || strContains c "bold" then
    "Innovation"
  else if strContains c "excellence" || strContains c "high standard" ||
      strContains c "deliver great" || strContains c "pride" || strContains c "best" then
    "Excellence"
  else if strContains c "accountab" || strContains c "own" ||
      (strContains c "decision" && strContains c "own") then
    "Accountability"
  else if strContains c "support" || strContains c "help" || strContains c "encourag" then
    "Supportive"
  else if strContains c "value" || strContains c "culture" || strContains c "mission" ||
      strContains c "recommend" then
    "Culture & Values Awareness"
  else if strContains c "growth" || strContains c "change" || strContains c "acquisition" ||
      strContains c "anxious" || strContains c "expand" then
    "Growth & Change"
  else "Other"

/-- `categorize_questions` (src/app.py lines 108-141): each column is
appended to its first matching category, and empty categories are
removed.  The resulting association list is exactly: each category name
in priority order, paired with the input columns (in input order) whose
first match is that category, keeping only the non-empty entries. -/
def categorize_questions (likert_cols : List String) : List (String × List String) :=
  (categoryNames.map
      (fun name => (name, likert_cols.filter (fun c => categoryOf c == name)))).filter
    (fun p => !p.2.isEmpty)

/-- The grouping dict of `group_responses` (src/app.py lines 147-153), as
the partial map that `Series.map` applies: labels absent from the dict
are sent to NaN. -/
def likertMapping : String → Option String
  | "Strongly Agree" => some "Positive"
  | "Agree" => some "Positive"
  | "Strongly Disagree" => some "Negative"
  | "Disagree" => some "Negative"
  | "Don\x27t Know" => some "Don\x27t Know"
  | _ => none

/-- `group_responses` (src/app.py lines 143-163): in grouped mode apply
`likertMapping` through `Series.map` (missing cells stay missing,
unknown labels become missing); then, when requested, drop the cells
equal to the do-not-know label (missing cells compare unequal and are
kept, as in pandas). -/
def group_responses (series : List Cell) (group_mode exclude_dont_know : Bool) :
    List Cell :=
  let result := if group_mode then series.map (fun c => c.bind likertMapping) else series
  if exclude_dont_know then result.filter (fun c => !(c == some "Don\x27t Know"))
  else result

/-- Modelling `pd.Series(vals).value_counts()`: the distinct values, each
paired with its number of occurrences.  (pandas sorts this tally by
descending count; the order is unused by every property below.) -/
def value_counts (vals : List String) : List (String × Nat) :=
  vals.dedup.map (fun v => (v, vals.count v))

/-- The pooled response list of `calculate_response_distribution`
(src/app.py lines 167-172): for each selected column, drop missing
values and pass the labels through `group_responses`. -/
def all_responses_of (df : Table) (columns : List String)
    (group_mode exclude_dont_know : Bool) : List Cell :=
  columns.flatMap
    (fun col => group_responses ((dropna (df.getCol col)).map some)
      group_mode exclude_dont_know)

/-- `calculate_response_distribution` (src/app.py lines 165-178): an empty
pool yields the empty distribution, otherwise the pool is tallied by
`value_counts` (which ignores the missing entries the grouping step may
have produced). -/
def calculate_response_distribution (df : Table) (columns : List String)
    (group_mode exclude_dont_know : Bool) : List (String × Nat) :=
  if (all_responses_of df columns group_mode exclude_dont_know).isEmpty then []
  else value_counts (dropna (all_responses_of df columns group_mode exclude_dont_know))

/-- The non-missing response values contributed by the selected columns
after the group/exclude filters: the pooled responses with the missing
entries removed. -/
def contributed_responses (df : Table) (columns : List String)
    (group_mode exclude_dont_know : Bool) : List String :=
  dropna (all_responses_of df columns group_mode exclude_dont_know)

/-- The filter-option computation of `main` (src/app.py lines 206 and
214): `df[name].dropna().unique().tolist()`.  The column lookup fails
with a `KeyError` when the column is absent. -/
def filter_options (df : Table) (name : String) : Except String (List String) :=
  (df.colE name).map (fun cells => (dropna cells).dedup)

/-- The per-department breakdown distribution of the Overview tab
(src/app.py lines 356-358):
`calculate_response_distribution(dept_df, selected_questions, group_responses_mode)`.
The `exclude_dont_know` toggle is in scope at the call site but is not
passed, so the call always uses the default `False`; the parameter is
kept here to record that the toggle does not reach the computation. -/
def dept_distribution_main (df : Table) (dept : String) (questions : List String)
    (group_mode exclude_dont_know : Bool) : List (String × Nat) :=
  calculate_response_distribution (df.filterByValue "Department" dept)
    questions group_mode false

/-- Modelling `distribution.get(key, 0)` (src/app.py lines 273, 277). -/
def distGet (d : List (String × Nat)) (k : String) : Nat :=
  ((d.find? (fun p => p.1 == k)).map Prod.snd).getD 0

/-- Modelling `distribution.sum()` (src/app.py lines 272, 278). -/
def distTotal (d : List (String × Nat)) : Nat := (d.map Prod.snd).sum

/-- The grouped-mode positive rate (src/app.py line 273):
`(distribution.get(Positive, 0) / total * 100) if total > 0 else 0`. -/
def positive_pct (d : List (String × Nat)) : ℚ :=
  if 0 < distTotal d then (distGet d "Positive" : ℚ) / (distTotal d : ℚ) * 100 else 0

/-- The ungrouped-mode agree rate (src/app.py lines 277-279):
`(agree_count / total * 100) if total > 0 else 0`. -/
def agree_pct (d : List (String × Nat)) : ℚ :=
  if 0 < distTotal d then
    ((distGet d "Strongly Agree" + distGet d "Agree" : Nat) : ℚ) / (distTotal d : ℚ) * 100
  else 0

/-! ## Helper lemmas -/

theorem filter_beq_singleton {l : List String} {a : String} (h : l.Nodup) (hm : a ∈ l) :
    l.filter (fun x => x == a) = [a] := by
  induction l with
  | nil => cases hm
  | cons b t ih =>
    rcases List.nodup_cons.mp h with ⟨hb, ht⟩
    rcases List.mem_cons.mp hm with rfl | hat
    · simp only [List.filter_cons, beq_self_eq_true, if_pos]
      simp only [List.cons.injEq, true_and]
      rw [List.filter_eq_nil_iff]
      intro x hx
      simp only [beq_iff_eq]
      rintro rfl
      exact hb hx
    · have hba : (b == a) = false := by
        simp only [beq_eq_false_iff_ne, ne_eq]
        rintro rfl
        exact hb hat
      simp [List.filter_cons, hba, ih ht hat]

/-- The word-by-word restatement, from the claim, of the grouping map:
the two agree labels collapse to Positive, the two disagree labels to
Negative, the do-not-know label stays itself, and any other label has no
image. -/
def spec_group_map (v : String) : Option String :=
  if v = "Strongly Agree" ∨ v = "Agree" then some "Positive"
  else if v = "Strongly Disagree" ∨ v = "Disagree" then some "Negative"
  else if v = "Don\x27t Know" then some "Don\x27t Know"
  else none

theorem likertMapping_eq_spec (v : String) : likertMapping v = spec_group_map v := by
  unfold likertMapping spec_group_map
  split <;> simp_all

theorem categoryOf_mem (c : String) : categoryOf c ∈ categoryNames := by
  unfold categoryOf categoryNames
  dsimp only
  split_ifs <;> simp

theorem sum_value_counts (vals : List String) :
    ((value_counts vals).map Prod.snd).sum = vals.length := by
  unfold value_counts
  rw [List.map_map]
  simpa using List.sum_map_count_dedup_eq_length vals

/-! ## Claim theorems -/

/-- C1.  Conservation law: for every table and list of selected columns
(drawn from the header of a duplicate-free table), the counts of the
distribution returned by `calculate_response_distribution` sum to the
number of non-missing response values contributed by those columns after
the group/exclude filters. -/
theorem distribution_sum_eq_contributed (df : Table) (columns : List String)
    (group_mode exclude_dont_know : Bool)
    (hsub : ∀ c ∈ columns, c ∈ df.header) (hnd : df.header.Nodup) :
    distTotal (calculate_response_distribution df columns group_mode exclude_dont_know)
      = (contributed_responses df columns group_mode exclude_dont_know).length := by
  unfold calculate_response_distribution contributed_responses distTotal
  by_cases hE : (all_responses_of df columns group_mode exclude_dont_know).isEmpty
  · simp [hE, dropna, List.isEmpty_iff.mp hE]
  · simp only [hE, if_neg, Bool.false_eq_true, not_false_eq_true]
    exact sum_value_counts _

/-- Checked instance of C1 on a concrete table. -/
theorem distribution_sum_eq_contributed_checked :
    distTotal (calculate_response_distribution
        ⟨["Q1"], [[some "Agree"], [none], [some "banana"], [some "Don\x27t Know"]]⟩
        ["Q1"] true false)
      = (contributed_responses
          ⟨["Q1"], [[some "Agree"], [none], [some "banana"], [some "Don\x27t Know"]]⟩
          ["Q1"] true false).length :=
  distribution_sum_eq_contributed _ _ _ _ (by decide) (by decide)

/-- C2.  In grouped mode (with no exclusion) `group_responses` maps each
label through the claimed table: Strongly Agree and Agree to Positive,
Strongly Disagree and Disagree to Negative, the do-not-know label to
itself, and every other label to an absent result. -/
theorem group_responses_grouped_spec (xs : List String) :
    group_responses (xs.map some) true false = xs.map spec_group_map := by
  unfold group_responses
  simp [likertMapping_eq_spec]

/-- C6 counterexample: in grouped mode a second application of
`group_responses` is not the identity on the first application, because
the already-grouped Positive label is absent from the grouping dict and
is sent to a missing value. -/
theorem group_responses_not_idempotent_grouped :
    group_responses (group_responses [some "Agree"] true false) true false
      ≠ group_responses [some "Agree"] true false := by decide

/-- C6 amended.  With grouping disabled, applying `group_responses` twice
with the same flags equals applying it once (the exclusion filter is
idempotent). -/
theorem group_responses_idempotent_ungrouped (xs : List Cell) (exclude_dont_know : Bool) :
    group_responses (group_responses xs false exclude_dont_know) false exclude_dont_know
      = group_responses xs false exclude_dont_know := by
  unfold group_responses
  cases exclude_dont_know
  · simp
  · simp [List.filter_filter]

/-- C8.  When no response values remain after dropping missing values and
applying the group/exclude filters, `calculate_response_distribution`
returns the empty distribution (the function is total: no error). -/
theorem distribution_empty_of_no_contributed (df : Table) (columns : List String)
    (group_mode exclude_dont_know : Bool)
    (h : contributed_responses df columns group_mode exclude_dont_know = []) :
    calculate_response_distribution df columns group_mode exclude_dont_know = [] := by
  unfold contributed_responses at h
  unfold calculate_response_distribution
  by_cases hE : (all_responses_of df columns group_mode exclude_dont_know).isEmpty
  · simp [hE]
  · simp [hE, value_counts, h]

/-- Checked instance of C8: a table whose only responses are missing. -/
theorem distribution_empty_checked :
    calculate_response_distribution ⟨["Q1"], [[none], [none]]⟩ ["Q1"] true true = [] :=
  distribution_empty_of_no_contributed _ _ _ _ (by decide)

/-- C10.  On an empty distribution (total of zero) both derived
percentage metrics are 0: no division is attempted. -/
theorem pct_zero_of_empty_total (d : List (String × Nat)) (h : distTotal d = 0) :
    positive_pct d = 0 ∧ agree_pct d = 0 := by
  unfold positive_pct agree_pct
  rw [h]
  simp

/-- Checked instance of C10 on the empty distribution. -/
theorem pct_zero_checked : positive_pct [] = 0 ∧ agree_pct [] = 0 :=
  pct_zero_of_empty_total [] (by decide)

/-- C3.  Code-bug exhibit: the Overview tab computes the per-department
breakdown without forwarding the exclude toggle (src/app.py line 358),
so with grouping on and the exclusion toggle on, a department whose only
response is the do-not-know label still yields a distribution containing
it — contradicting the toggle's own help text (src/app.py line 244). -/
theorem dept_breakdown_retains_dont_know :
    dept_distribution_main ⟨["Department", "Q1"], [[some "Eng", some "Don\x27t Know"]]⟩
        "Eng" ["Q1"] true true = [("Don\x27t Know", 1)] := by decide

/-- C4.  Membership in `get_likert_columns`: a column is returned iff it
is in the header, is none of the three identifier columns, does not start
with "Open-Ended", and at least one of its non-missing values is a Likert
label.  (The header is assumed duplicate-free, as pandas column access by
name is only well-behaved then.) -/
theorem mem_get_likert_columns_iff (df : Table) (col : String) (hnd : df.header.Nodup) :
    col ∈ get_likert_columns df ↔
      col ∈ df.header
      ∧ col ∉ (["Respondent_ID", "Department", "Tenure"] : List String)
      ∧ strStarts col "Open-Ended" = false
      ∧ ∃ v ∈ dropna (df.getCol col), v ∈ likert_values := by
  unfold get_likert_columns
  rw [List.mem_filter]
  simp [and_assoc]

/-- Checked instance of C4 on a concrete table. -/
theorem mem_get_likert_columns_checked :
    "Q1" ∈ get_likert_columns
        ⟨["Respondent_ID", "Q1", "Open-Ended Q2"],
         [[some "17", some "Agree", some "free text"]]⟩ :=
  (mem_get_likert_columns_iff
      ⟨["Respondent_ID", "Q1", "Open-Ended Q2"],
       [[some "17", some "Agree", some "free text"]]⟩ "Q1" (by decide)).mpr (by decide)

theorem cat_filter_aux (cols : List String) (c : String) (hc : c ∈ cols) :
    ∀ L : List String, L.Nodup →
      ((L.map (fun name => (name, cols.filter (fun x => categoryOf x == name)))).filter
          (fun p => p.2.contains c && !p.2.isEmpty)).map Prod.fst
        = if categoryOf c ∈ L then [categoryOf c] else [] := by
  intro L
  induction L with
  | nil => simp
  | cons b t ih =>
    intro hnd
    rcases List.nodup_cons.mp hnd with ⟨hb, ht⟩
    rw [List.map_cons]
    by_cases hcb : categoryOf c = b
    · subst hcb
      have hmem : c ∈ cols.filter (fun x => categoryOf x == categoryOf c) :=
        List.mem_filter.mpr ⟨hc, by simp⟩
      have h1 : (cols.filter (fun x => categoryOf x == categoryOf c)).contains c = true :=
        List.elem_eq_true_of_mem hmem
      have h2 : (cols.filter (fun x => categoryOf x == categoryOf c)).isEmpty = false := by
        simp [List.isEmpty_iff]
        exact ⟨c, hc, rfl⟩
      rw [List.filter_cons_of_pos (by simp only [h1, h2]; rfl), List.map_cons, ih ht,
        if_neg hb, if_pos (List.mem_cons_self _ _)]
    · have hnotmem : c ∉ cols.filter (fun x => categoryOf x == b) := by
        intro hmem
        exact hcb (by simpa using (List.mem_filter.mp hmem).2)
      have hcont : (cols.filter (fun x => categoryOf x == b)).contains c = false := by
        simpa using hnotmem
      rw [List.filter_cons_of_neg
        (by simp only [hcont, Bool.false_and]; exact Bool.false_ne_true), ih ht]
      have hiff : (categoryOf c ∈ b :: t) ↔ (categoryOf c ∈ t) := by
        simp [List.mem_cons, hcb]
      by_cases hmt : categoryOf c ∈ t
      · rw [if_pos hmt, if_pos (hiff.mpr hmt)]
      · rw [if_neg hmt, if_neg (fun hx => hmt (hiff.mp hx))]

/-- C5.  `categorize_questions` sends every input column to exactly one
output category — the one selected by the keyword priority order
(`categoryOf`) — omits empty categories, keeps only the eight fixed
category names, and lists each category's columns in source order (as a
sublist of the input). -/
theorem categorize_questions_partition (cols : List String) :
    (∀ c ∈ cols,
        ((categorize_questions cols).filter (fun p => p.2.contains c)).map Prod.fst
          = [categoryOf c])
    ∧ ∀ p ∈ categorize_questions cols,
        p.1 ∈ categoryNames ∧ p.2 ≠ [] ∧ List.Sublist p.2 cols := by
  constructor
  · intro c hc
    unfold categorize_questions
    simp only [List.filter_filter]
    rw [cat_filter_aux cols c hc categoryNames (by decide), if_pos (categoryOf_mem c)]
  · intro p hp
    unfold categorize_questions at hp
    rw [List.mem_filter] at hp
    obtain ⟨hp1, hp2⟩ := hp
    obtain ⟨name, hname, rfl⟩ := List.mem_map.mp hp1
    refine ⟨hname, ?_, List.filter_sublist _⟩
    simpa using hp2

/-- Checked instance of C5 on two concrete columns. -/
theorem categorize_questions_checked :
    ((categorize_questions ["We deliver for every customer", "Miscellaneous item"]).filter
        (fun p => p.2.contains "Miscellaneous item")).map Prod.fst
      = [categoryOf "Miscellaneous item"] :=
  (categorize_questions_partition ["We deliver for every customer", "Miscellaneous item"]).1
    "Miscellaneous item" (by decide)

/-- C7 counterexample: on a table with no Department column the
department filter-option computation raises the pandas key error rather
than degrading to an empty option list. -/
theorem filter_options_missing_column_fails :
    filter_options ⟨["Q1"], [[some "Agree"]]⟩ "Department"
        = .error "KeyError: Department"
      ∧ (filter_options ⟨["Q1"], [[some "Agree"]]⟩ "Department").isOk = false :=
  ⟨rfl, rfl⟩

/-- C7 amended.  The zero-option degradation holds when the column is
present but holds no non-missing value: the filter options then come
back empty, without failure. -/
theorem filter_options_empty_of_all_missing (df : Table) (name : String)
    (cells : List Cell) (hcol : df.getCol? name = some cells)
    (hmiss : dropna cells = []) :
    filter_options df name = .ok [] := by
  simp [filter_options, Table.colE, hcol, hmiss, Except.map]

/-- Checked instance of the amended C7. -/
theorem filter_options_empty_checked :
    filter_options ⟨["Department", "Q1"], [[none, some "Agree"]]⟩ "Department"
      = .ok [] :=
  filter_options_empty_of_all_missing
    ⟨["Department", "Q1"], [[none, some "Agree"]]⟩ "Department" [none]
    (by decide) (by decide)

/-- C9.  The loaded column list keeps exactly the (renamed) raw columns
that neither contain "Other (please specify)" nor equal "Response"; when
no raw column matches the drop predicate, loading leaves the renamed
columns unchanged (a silent skip, not an error). -/
theorem load_data_cols_spec (raw : List String) :
    (∀ c, c ∈ load_data_cols raw ↔
        c ∈ raw.map renameCol
          ∧ strContains c "Other (please specify)" = false ∧ c ≠ "Response")
    ∧ ((∀ c ∈ raw.map renameCol,
          strContains c "Other (please specify)" = false ∧ c ≠ "Response")
        → load_data_cols raw = raw.map renameCol) := by
  constructor
  · intro c
    simp [load_data_cols, isDroppedCol, List.mem_filter, and_assoc]
  · intro h
    unfold load_data_cols
    rw [List.filter_eq_self]
    intro a ha
    obtain ⟨h1, h2⟩ := h a ha
    simp [isDroppedCol, h1, h2]

/-- Checked instance of C9: a raw header with no droppable column passes
through the rename unchanged. -/
theorem load_data_cols_checked :
    load_data_cols ["Respondent ID", "Q one"] = ["Respondent ID", "Q one"].map renameCol :=
  (load_data_cols_spec ["Respondent ID", "Q one"]).2 (by decide)

end SurveyApp
